import Mathlib

/-!
Shallow embedding of the proxy-pool / account-registry / worker layer of the
web3-airdrop-tools repository (src/proxy_manager.py, src/account_manager.py,
src/worker.py), together with theorems settling the frozen claims about it.

Modelling conventions:
* Python `float` timestamps and durations carry only ordering/arithmetic
  content here, so they are embedded as `Int`.
* Python `Optional[T]` becomes `Option T`; Python truthiness of an optional
  value (`if x:`) is embedded explicitly, since `None`, `""`, `0` and `0.0`
  are all falsy in Python.
* I/O (file persistence, logging, network) is elided; the persisted value is
  the returned/constructed data.  A raised Python exception is embedded as
  `Except.error` with the exception text.
-/

/-- Byte strings (Python `bytes`) as lists of byte values. -/
abbrev Bytes := List Nat

/-- Python truthiness of an `Optional[str]`: `None` and `""` are falsy. -/
def strOptTruthy : Option String → Bool
  | none => false
  | some s => s != ""

/-- Python truthiness of an optional timestamp: `None` and `0.0` are falsy. -/
def timeOptTruthy : Option Int → Bool
  | none => false
  | some t => t != 0

/-- src/proxy_manager.py lines 11-23: the `Proxy` dataclass and its field
defaults. -/
structure Proxy where
  ip : String
  port : Int
  username : Option String := none
  password : Option String := none
  protocol : String := "http"
  country : Option String := none
  last_used : Option Int := none
  fail_count : Int := 0
  last_checked : Option Int := none
  is_working : Bool := false
  response_time : Option Int := none
deriving DecidableEq

/-- src/proxy_manager.py lines 25-30: the composed `address` property,
`protocol://[user:pass@]ip:port`; the credential part is present only when
both username and password are truthy. -/
def Proxy.address (p : Proxy) : String :=
  if strOptTruthy p.username && strOptTruthy p.password then
    p.protocol ++ "://" ++ p.username.getD "" ++ ":" ++ p.password.getD "" ++
      "@" ++ p.ip ++ ":" ++ toString p.port
  else
    p.protocol ++ "://" ++ p.ip ++ ":" ++ toString p.port

/-- src/proxy_manager.py lines 55-57: `mark_used` stamps `last_used` with the
current time. -/
def Proxy.mark_used (now : Int) (p : Proxy) : Proxy :=
  { p with last_used := some now }

/-- src/proxy_manager.py lines 59-61: `mark_failed` increments `fail_count`. -/
def Proxy.mark_failed (p : Proxy) : Proxy :=
  { p with fail_count := p.fail_count + 1 }

/-- src/proxy_manager.py lines 63-65: `mark_success` decreases `fail_count`,
clamped at zero via `max(0, fail_count - 1)`. -/
def Proxy.mark_success (p : Proxy) : Proxy :=
  { p with fail_count := max 0 (p.fail_count - 1) }

/-- src/proxy_manager.py lines 67-75: `set_check_result` records a health
check: sets `is_working`, stamps `last_checked` with the current time, stores
the passed `response_time`, and either resets `fail_count` to 0 (working) or
increments it (not working). -/
def Proxy.set_check_result (now : Int) (is_working : Bool)
    (response_time : Option Int) (p : Proxy) : Proxy :=
  { p with
    is_working := is_working
    last_checked := some now
    response_time := response_time
    fail_count := if is_working then 0 else p.fail_count + 1 }

/-- src/proxy_manager.py lines 202-213: the per-proxy filter inside
`get_proxy`.  A candidate is kept unless one of the `continue` guards fires:
too many fails; `working_only` with a truthy `last_checked` but not
`is_working`; country mismatch (only when the `country` argument is truthy);
protocol mismatch (only when the `protocol` argument is truthy); used within
`min_reuse_delay` seconds of now (only when `last_used` is truthy). -/
def proxyPasses (now : Int) (country : Option String) (maxFails : Int)
    (protocol : Option String) (workingOnly : Bool) (minReuseDelay : Int)
    (p : Proxy) : Bool :=
  !(maxFails ≤ p.fail_count) &&
  !(workingOnly && timeOptTruthy p.last_checked && !p.is_working) &&
  !(strOptTruthy country && !(p.country == country)) &&
  !(strOptTruthy protocol && !(p.protocol == protocol.getD "")) &&
  !(timeOptTruthy p.last_used && now - p.last_used.getD 0 ≤ minReuseDelay)

/-- src/proxy_manager.py line 225: the sort key `(fail_count, last_used or 0)`.
`x.last_used or 0` yields 0 when `last_used` is `None` or `0.0`, i.e. exactly
`getD 0`. -/
def proxySortKey (p : Proxy) : Int × Int :=
  (p.fail_count, p.last_used.getD 0)

/-- Lexicographic order on the sort key, as used by the stable list sort at
src/proxy_manager.py line 225. -/
def proxyLE (a b : Proxy) : Prop :=
  a.fail_count < b.fail_count ∨
    (a.fail_count = b.fail_count ∧ a.last_used.getD 0 ≤ b.last_used.getD 0)

instance : DecidableRel proxyLE := fun a b => by
  unfold proxyLE
  exact inferInstance

/-- src/proxy_manager.py lines 195-230: `get_proxy`.  Filters the pool with
`proxyPasses`; if nothing passes and `working_only` was true, retries once with
`working_only=False` (a single-level fallback); otherwise sorts the candidates
by `(fail_count, last_used or 0)` (a stable sort, modelled by insertion sort)
and returns the first.  The source then stamps the chosen proxy via
`mark_used` and persists; the value modelled here is the selected proxy at
selection time. -/
def get_proxy (pool : List Proxy) (now : Int) (country : Option String)
    (maxFails : Int) (protocol : Option String) (workingOnly : Bool)
    (minReuseDelay : Int) : Option Proxy :=
  let avail := pool.filter
    (proxyPasses now country maxFails protocol workingOnly minReuseDelay)
  if avail.isEmpty then
    if workingOnly then
      let avail2 := pool.filter
        (proxyPasses now country maxFails protocol false minReuseDelay)
      if avail2.isEmpty then none
      else (List.insertionSort proxyLE avail2).head?
    else none
  else (List.insertionSort proxyLE avail).head?

/-- src/proxy_manager.py lines 232-245: `report_proxy_result` finds the first
pool entry matching the given proxy by (ip, port) and applies `mark_success`
or `mark_failed` to it, then stops (the loop breaks after the first match). -/
def report_proxy_result : List Proxy → Proxy → Bool → List Proxy
  | [], _, _ => []
  | p :: rest, q, success =>
    if p.ip = q.ip ∧ p.port = q.port then
      (if success then p.mark_success else p.mark_failed) :: rest
    else
      p :: report_proxy_result rest q success

/-- Outcome of the reachability request in `test_proxy`: either an HTTP
response with a status code, or a raised exception; both take elapsed time. -/
inductive ProbeOutcome
  | response (status : Nat) (elapsed : Int)
  | exn (elapsed : Int)
deriving DecidableEq

/-- src/proxy_manager.py lines 247-280: `test_proxy`.  On a response, success
is `status == 200` and `set_check_result(success, response_time)` is applied;
on an exception, `set_check_result(False, response_time)` is applied — note
the elapsed time is recorded on the exception path too.  Returns the success
flag and the updated proxy. -/
def test_proxy (p : Proxy) (now : Int) (o : ProbeOutcome) : Bool × Proxy :=
  match o with
  | .response status elapsed =>
    let success := status == 200
    (success, p.set_check_result now success (some elapsed))
  | .exn elapsed =>
    (false, p.set_check_result now false (some elapsed))

/-- A usage report or health-check application to a single proxy, the two
paths that mutate `fail_count` (src/proxy_manager.py lines 59-75, 232-245). -/
inductive UsageEvent
  | failed
  | success
  | checkResult (now : Int) (working : Bool) (response_time : Option Int)
deriving DecidableEq

/-- Apply one usage/check event to a proxy. -/
def applyUsageEvent (p : Proxy) : UsageEvent → Proxy
  | .failed => p.mark_failed
  | .success => p.mark_success
  | .checkResult now working rt => p.set_check_result now working rt

/-- Apply a sequence of usage/check events to a proxy, left to right. -/
def applyUsageEvents (p : Proxy) (evs : List UsageEvent) : Proxy :=
  evs.foldl applyUsageEvent p

/-- JSON rendering of an optional string field, `null` when absent.  String
escaping is elided: the fields at hand never hold quotes or backslashes. -/
def jsonOfOptStr : Option String → String
  | none => "null"
  | some s => "\"" ++ s ++ "\""

/-- JSON rendering of an optional number field, `null` when absent. -/
def jsonOfOptInt : Option Int → String
  | none => "null"
  | some n => toString n

/-- JSON rendering of a boolean field. -/
def jsonOfBool : Bool → String
  | true => "true"
  | false => "false"

/-- One `Proxy` record as produced by `json.dumps(asdict(p))` at
src/proxy_manager.py line 361: all dataclass fields in declaration order.
Indentation whitespace of `indent=2` is elided. -/
def jsonOfProxy (p : Proxy) : String :=
  "\x7b\"ip\": \"" ++ p.ip ++ "\", \"port\": " ++ toString p.port ++
  ", \"username\": " ++ jsonOfOptStr p.username ++
  ", \"password\": " ++ jsonOfOptStr p.password ++
  ", \"protocol\": \"" ++ p.protocol ++ "\"" ++
  ", \"country\": " ++ jsonOfOptStr p.country ++
  ", \"last_used\": " ++ jsonOfOptInt p.last_used ++
  ", \"fail_count\": " ++ toString p.fail_count ++
  ", \"last_checked\": " ++ jsonOfOptInt p.last_checked ++
  ", \"is_working\": " ++ jsonOfBool p.is_working ++
  ", \"response_time\": " ++ jsonOfOptInt p.response_time ++ "\x7d"

/-- src/proxy_manager.py lines 352-357: one line of the `plain` export format,
`ip:port:username:password` when both credentials are truthy, else `ip:port`. -/
def plainLineOfProxy (p : Proxy) : String :=
  if strOptTruthy p.username && strOptTruthy p.password then
    p.ip ++ ":" ++ toString p.port ++ ":" ++ p.username.getD "" ++ ":" ++
      p.password.getD ""
  else
    p.ip ++ ":" ++ toString p.port

/-- src/proxy_manager.py lines 346-367: `export_working_proxies`.  Filters the
pool to the `is_working` entries and renders them in the requested format;
the recognised formats are `plain`, `json` and `curl`, and any other format
raises `ValueError(f"Unknown export format: ...")`. -/
def export_working_proxies (pool : List Proxy) (format : String) :
    Except String String :=
  let working := pool.filter (fun p => p.is_working)
  if format = "plain" then
    .ok (String.intercalate "\n" (working.map plainLineOfProxy))
  else if format = "json" then
    .ok ("[" ++ String.intercalate ", " (working.map jsonOfProxy) ++ "]")
  else if format = "curl" then
    .ok (String.intercalate "\n" (working.map (fun p => "--proxy " ++ p.address)))
  else
    .error ("Unknown export format: " ++ format)

/-- src/account_manager.py lines 29-34: one entry of the per-platform
registration map `{username, registered, last_activity}`. -/
structure PlatformInfo where
  username : String
  registered : Bool
  last_activity : Option String
deriving DecidableEq

/-- src/account_manager.py lines 15-25: the `Account` dataclass and its field
defaults.  `platforms` is an insertion-ordered string-keyed map, embedded as
an association list; `password_hash` holds the decoded stored record
(salt ‖ derived key) — the base64 storage encoding, a bijection on byte
strings, is elided. -/
structure Account where
  email : String
  password : String
  recovery_email : Option String := none
  proxy : Option String := none
  user_agent : Option String := none
  created_date : String := ""
  platforms : Option (List (String × PlatformInfo)) := none
  notes : String := ""
  password_hash : Option Bytes := none
deriving DecidableEq

/-- src/account_manager.py lines 30-34: the default platform map installed by
`__post_init__` when none was given. -/
def defaultPlatforms : List (String × PlatformInfo) :=
  [("twitter", ⟨"", false, none⟩),
   ("telegram", ⟨"", false, none⟩),
   ("discord", ⟨"", false, none⟩)]

/-- src/account_manager.py lines 41-45: `_hash_password` draws a fresh random
16-byte salt, derives a key from the password and salt via 100000 iterations
of PBKDF2-HMAC-SHA256, and stores `salt ‖ key`.  The key-derivation function
is external library code, taken here as a parameter `kdf`; the base64
storage encoding (a bijection) is elided, keeping the raw bytes. -/
def hash_password (kdf : String → Bytes → Bytes) (salt : Bytes)
    (password : String) : Bytes :=
  salt ++ kdf password salt

/-- src/account_manager.py lines 47-58: `verify_password` returns false when
`password_hash` is falsy (absent or empty); otherwise it splits the stored
record into the first 16 bytes (salt) and the rest (key), recomputes the key
from the candidate password with the stored salt, and compares. -/
def verify_password (kdf : String → Bytes → Bytes) (a : Account)
    (password : String) : Bool :=
  match a.password_hash with
  | none => false
  | some stored =>
    if stored = [] then false
    else kdf password (stored.take 16) == stored.drop 16

/-- src/account_manager.py lines 27-39: `__post_init__` fills in the default
platform map when `platforms` is `None`, and when `password_hash` is falsy
(absent or empty) hashes the plaintext `password` into it. -/
def post_init (kdf : String → Bytes → Bytes) (salt : Bytes) (a : Account) :
    Account :=
  let a1 := match a.platforms with
    | none => { a with platforms := some defaultPlatforms }
    | some _ => a
  match a1.password_hash with
  | none => { a1 with password_hash := some (hash_password kdf salt a1.password) }
  | some h =>
    if h = [] then
      { a1 with password_hash := some (hash_password kdf salt a1.password) }
    else a1

/-- JSON-like values appearing in a serialised `Account` record. -/
inductive JVal
  | null
  | str (s : String)
  | bytes (b : Bytes)
  | platMap (m : List (String × PlatformInfo))
deriving DecidableEq

/-- JSON rendering of an optional string as a `JVal`. -/
def jvalOfOptStr : Option String → JVal
  | none => .null
  | some s => .str s

/-- The `asdict(acc)` dictionary built at src/account_manager.py line 124:
all dataclass fields of `Account` in declaration order. -/
def account_asdict (a : Account) : List (String × JVal) :=
  [("email", .str a.email),
   ("password", .str a.password),
   ("recovery_email", jvalOfOptStr a.recovery_email),
   ("proxy", jvalOfOptStr a.proxy),
   ("user_agent", jvalOfOptStr a.user_agent),
   ("created_date", .str a.created_date),
   ("platforms", match a.platforms with
     | none => .null
     | some m => .platMap m),
   ("notes", .str a.notes),
   ("password_hash", match a.password_hash with
     | none => .null
     | some h => .bytes h)]

/-- src/account_manager.py lines 122-128: the record written for one account
by `save_accounts` — `asdict(acc)` with the `password` key deleted. -/
def saveRecord (a : Account) : List (String × JVal) :=
  (account_asdict a).filter (fun kv => !(kv.1 == "password"))

/-- src/account_manager.py lines 115-136: `save_accounts` writes the list of
per-account records (plaintext password removed) to the store.  The value
modelled is the written record list; the temp-file/atomic-replace mechanics
are elided. -/
def save_accounts (accounts : List Account) : List (List (String × JVal)) :=
  accounts.map saveRecord

/-- src/account_manager.py lines 246-251: `get_account` returns the first
account with the given email, if any. -/
def get_account (accounts : List Account) (email : String) : Option Account :=
  accounts.find? (fun a => a.email == email)

/-- src/account_manager.py lines 221-230: the platform-map upsert inside
`update_platform_status` — update the entry in place when the key exists,
else append a new entry; either way stamp `last_activity` with now. -/
def upsertPlatform (m : List (String × PlatformInfo))
    (platform username : String) (registered : Bool) (now : String) :
    List (String × PlatformInfo) :=
  if (m.lookup platform).isSome then
    m.map (fun kv =>
      if kv.1 = platform then
        (kv.1, { username := username, registered := registered,
                 last_activity := some now })
      else kv)
  else
    m ++ [(platform, { username := username, registered := registered,
                       last_activity := some now })]

/-- src/account_manager.py lines 217-235: `update_platform_status` walks the
account list, updates the platform entry of the first account matching the
email (stamping `last_activity`), persists and returns true; returns false
when no account matches.  `platforms` is always a map after `__post_init__`,
embedded via `getD []`. -/
def update_platform_status : List Account → String → String → String → Bool →
    String → List Account × Bool
  | [], _, _, _, _, _ => ([], false)
  | a :: rest, email, platform, username, registered, now =>
    if a.email = email then
      let m := upsertPlatform (a.platforms.getD []) platform username
        registered now
      ({ a with platforms := some m } :: rest, true)
    else
      let r := update_platform_status rest email platform username registered now
      (a :: r.1, r.2)

/-- Replace the first account matching the email by applying `f` to it,
embedding a Python in-place mutation of the object `get_account` found. -/
def replace_account : List Account → String → (Account → Account) → List Account
  | [], _, _ => []
  | a :: rest, email, f =>
    if a.email = email then f a :: rest
    else a :: replace_account rest email f

/-- Python `str.replace("://", ":")` on a character sequence: scan left to
right, rewriting each non-overlapping occurrence of `://` to `:`. -/
def replaceProtoSep : List Char → List Char
  | ':' :: '/' :: '/' :: rest => ':' :: replaceProtoSep rest
  | c :: rest => c :: replaceProtoSep rest
  | [] => []

/-- Python `str.split(sep)` for a one-character separator, on a character
sequence: splitting an empty string yields one empty part. -/
def splitChar (sep : Char) : List Char → List (List Char)
  | [] => [[]]
  | c :: rest =>
    let r := splitChar sep rest
    if c = sep then [] :: r
    else (c :: r.headD []) :: r.tail

/-- Digit-sequence value for Python `int(...)`: all characters must be
decimal digits and at least one must be present. -/
def natOfDigits : List Char → Nat → Option Nat
  | [], _ => none
  | [c], acc =>
    if c.isDigit then some (acc * 10 + (c.toNat - '0'.toNat)) else none
  | c :: rest, acc =>
    if c.isDigit then natOfDigits rest (acc * 10 + (c.toNat - '0'.toNat))
    else none

/-- Python `int(s)` on a plain decimal literal with optional leading minus;
any other shape raises `ValueError`, embedded as `none`. -/
def pyInt : List Char → Option Int
  | '-' :: ds => (natOfDigits ds 0).map (fun n => -(n : Int))
  | ds => (natOfDigits ds 0).map (fun n => (n : Int))

/-- Result dictionary of the `register_platform` handler
(src/worker.py lines 157-162). -/
structure RegisterResult where
  success : Bool
  message : String
  platform : Option String
  platform_username : Option String
deriving DecidableEq

/-- src/worker.py lines 130-138: resolution of the account's assigned proxy
string inside `_register_platform`: replace `://` by `:`, split on `:`; with
at least 3 parts, the ip is the tail of part 1 after `@` (auth handling) and
the port is `int(part 2)` — which raises `ValueError` on a non-numeric part;
with fewer parts the proxy stays `None`. -/
def resolve_account_proxy (a : Account) : Except String (Option Proxy) :=
  if strOptTruthy a.proxy then
    let proxy_address := a.proxy.getD ""
    let proxy_parts := splitChar ':' (replaceProtoSep proxy_address.toList)
    if 3 ≤ proxy_parts.length then
      let ip := String.mk ((splitChar '@' (proxy_parts.getD 1 [])).getLastD [])
      match pyInt (proxy_parts.getD 2 []) with
      | some port => .ok (some { ip := ip, port := port })
      | none => .error ("ValueError: invalid literal for int: " ++
          String.mk (proxy_parts.getD 2 []))
    else .ok none
  else .ok none

/-- src/worker.py lines 110-162: the `_register_platform` handler.  Fails on
missing email/platform or unknown account; resolves the account's assigned
proxy; the automation attempt is external (stubbed probabilistic) and taken
as the parameter `automation_success`.  On success it updates the registry's
platform status and reports the platform username; on failure with a resolved
proxy it calls `self.proxy_manager.report_proxy_failure(proxy)` — a method
that does not exist on `ProxyManager` (src/proxy_manager.py defines only
`report_proxy_result`), so an `AttributeError` is raised; on failure without
a proxy it returns a failure result (the `platform_username if success else
None` conditional never evaluates the unbound name on that path). -/
def register_platform (accounts : List Account) (pool : List Proxy)
    (email platform : Option String) (automation_success : Bool)
    (now : String) :
    Except String (RegisterResult × List Account × List Proxy) :=
  if !(strOptTruthy email) || !(strOptTruthy platform) then
    .ok ({ success := false, message := "Missing email or platform",
           platform := none, platform_username := none }, accounts, pool)
  else
    let e := email.getD ""
    let pf := platform.getD ""
    match get_account accounts e with
    | none =>
      .ok ({ success := false, message := "Account not found: " ++ e,
             platform := none, platform_username := none }, accounts, pool)
    | some account =>
      match resolve_account_proxy account with
      | .error err => .error err
      | .ok proxyOpt =>
        if automation_success then
          let platform_username :=
            String.mk ((splitChar '@' account.email.toList).headD []) ++
              "_" ++ pf
          let accounts2 :=
            (update_platform_status accounts account.email pf
              platform_username true now).1
          .ok ({ success := true,
                 message := "Successfully registered on " ++ pf,
                 platform := some pf,
                 platform_username := some platform_username },
               accounts2, pool)
        else
          match proxyOpt with
          | some _ =>
            .error ("AttributeError: ProxyManager object has no attribute " ++
              "report_proxy_failure")
          | none =>
            .ok ({ success := false,
                   message := "Failed to register on " ++ pf,
                   platform := some pf, platform_username := none },
                 accounts, pool)

/-- Result dictionary of the `_participate_airdrop` handler
(src/worker.py lines 209-215); the early-failure returns carry only the
success flag and message, embedded as `none`/`[]` in the other fields. -/
structure ParticipateResult where
  success : Bool
  message : String
  airdrop_name : Option String
  platform : Option String
  actions_completed : List String
deriving DecidableEq

/-- src/worker.py lines 197-204: appending the participation note to the
account — on a separate line when notes already exist. -/
def append_note (a : Account) (note : String) : Account :=
  if a.notes ≠ "" then { a with notes := a.notes ++ "\n" ++ note }
  else { a with notes := note }

/-- src/worker.py lines 164-215: the `_participate_airdrop` handler.  Fails on
missing task data, unknown account, or an account not registered on the given
platform; otherwise the automation attempt is external and taken as the
parameter `automation_success`.  On success a timestamped note is appended to
the account and the registry is persisted.  Returns the result, the updated
account list, and whether `save_accounts` was called. -/
def participate_airdrop (accounts : List Account)
    (email airdrop_name platform : Option String) (actions : List String)
    (automation_success : Bool) (now : String) :
    ParticipateResult × List Account × Bool :=
  if !(strOptTruthy email) || !(strOptTruthy airdrop_name) ||
      !(strOptTruthy platform) then
    ({ success := false, message := "Missing required task data",
       airdrop_name := none, platform := none, actions_completed := [] },
     accounts, false)
  else
    let e := email.getD ""
    let an := airdrop_name.getD ""
    let pf := platform.getD ""
    match get_account accounts e with
    | none =>
      ({ success := false, message := "Account not found: " ++ e,
         airdrop_name := none, platform := none, actions_completed := [] },
       accounts, false)
    | some account =>
      let registered := match (account.platforms.getD []).lookup pf with
        | none => false
        | some info => info.registered
      if !registered then
        ({ success := false, message := "Account not registered on " ++ pf,
           airdrop_name := none, platform := none, actions_completed := [] },
         accounts, false)
      else if automation_success then
        let note := now ++ ": Participated in " ++ an ++ " airdrop on " ++
          pf ++ " (" ++ String.intercalate ", " actions ++ ")"
        ({ success := true, message := "Successfully participated in " ++ an,
           airdrop_name := some an, platform := some pf,
           actions_completed := actions },
         replace_account accounts e (fun b => append_note b note), true)
      else
        ({ success := false, message := "Failed to participate in " ++ an,
           airdrop_name := some an, platform := some pf,
           actions_completed := [] },
         accounts, false)

/-- src/account_manager.py line 146: `string.ascii_uppercase`. -/
def uppercase_chars : List Char := "ABCDEFGHIJKLMNOPQRSTUVWXYZ".toList

/-- src/account_manager.py line 147: `string.ascii_lowercase`. -/
def lowercase_chars : List Char := "abcdefghijklmnopqrstuvwxyz".toList

/-- src/account_manager.py line 148: `string.digits`. -/
def digits_chars : List Char := "0123456789".toList

/-- src/account_manager.py line 149: the fixed special set. -/
def special_chars : List Char := "!@#$%^&*".toList

/-- `random.choice(seq)`: the library picks a uniformly random valid index;
the randomness source is embedded as an arbitrary natural number reduced
modulo the length, so every choice is an element of the sequence. -/
def rand_choice (l : List Char) (r : Nat) : Char :=
  l.getD (r % l.length) 'A'

/-- src/account_manager.py lines 143-165: `generate_password`.  Starts with
one random choice from each required class, extends with `length - 4` random
choices from the full alphabet (on Python ints, `range(length - 4)` is empty
whenever `length ≤ 4`, matching truncated subtraction on `Nat`), and shuffles.
The random stream is the parameter `rand`; `random.shuffle` is the parameter
`shuffle`, an arbitrary permutation. -/
def generate_password (length : Nat) (rand : Nat → Nat)
    (shuffle : List Char → List Char) : List Char :=
  let password := [rand_choice uppercase_chars (rand 0),
                   rand_choice lowercase_chars (rand 1),
                   rand_choice digits_chars (rand 2),
                   rand_choice special_chars (rand 3)]
  let all_chars := uppercase_chars ++ lowercase_chars ++ digits_chars ++
    special_chars
  let password := password ++
    (List.range (length - 4)).map (fun i => rand_choice all_chars (rand (4 + i)))
  shuffle password

/-- A proxy returned by `get_proxy` passed `proxyPasses` for some value of the
`working_only` flag: the primary pass uses the given flag, the single-level
fallback pass uses `false`. -/
lemma get_proxy_passes (pool : List Proxy) (now : Int) (country : Option String)
    (maxFails : Int) (protocol : Option String) (workingOnly : Bool)
    (minReuseDelay : Int) (p : Proxy)
    (h : get_proxy pool now country maxFails protocol workingOnly
      minReuseDelay = some p) :
    ∃ b, proxyPasses now country maxFails protocol b minReuseDelay p = true := by
  unfold get_proxy at h
  dsimp only at h
  split at h
  · split at h
    · split at h
      · exact absurd h (by simp)
      · refine ⟨false, ?_⟩
        have hm : p ∈ List.insertionSort proxyLE (pool.filter
            (proxyPasses now country maxFails protocol false minReuseDelay)) :=
          List.mem_of_mem_head? h
        rw [List.mem_insertionSort] at hm
        exact (List.mem_filter.mp hm).2
    · exact absurd h (by simp)
  · refine ⟨workingOnly, ?_⟩
    have hm : p ∈ List.insertionSort proxyLE (pool.filter
        (proxyPasses now country maxFails protocol workingOnly minReuseDelay)) :=
      List.mem_of_mem_head? h
    rw [List.mem_insertionSort] at hm
    exact (List.mem_filter.mp hm).2

/-- Unpacking of the `proxyPasses` conjuncts needed by the claims. -/
lemma proxyPasses_spec (now : Int) (country : Option String) (maxFails : Int)
    (protocol : Option String) (b : Bool) (minReuseDelay : Int) (p : Proxy)
    (h : proxyPasses now country maxFails protocol b minReuseDelay p = true) :
    (b = true → timeOptTruthy p.last_checked = true → p.is_working = true) ∧
    (timeOptTruthy p.last_used = true →
      ¬(now - p.last_used.getD 0 ≤ minReuseDelay)) := by
  constructor
  · intro hb hc
    subst hb
    by_contra hw
    rw [Bool.not_eq_true] at hw
    simp [proxyPasses, hc, hw] at h
  · intro hu hle
    simp [proxyPasses, hu, hle] at h

def uncheckedProxyFx : Proxy := { ip := "10.0.0.1", port := 8080 }

def workingProxyFx : Proxy :=
  { ip := "10.0.0.9", port := 80, last_checked := some 10, is_working := true }

def zeroUsedProxyFx : Proxy := { ip := "10.0.0.2", port := 8080, last_used := some 0 }

def cooledProxyFx : Proxy := { ip := "10.0.0.4", port := 80, last_used := some 400 }

/-- C3 counterexample: a never-health-checked proxy (`last_checked = None`,
`is_working = False`) is returned by `get_proxy` with `working_only=True` on
the primary path (the primary filter result is non-empty, so the fallback is
not exercised), refuting the claim that the returned proxy has had a prior
successful health check. -/
theorem get_proxy_unchecked_cex :
    get_proxy [uncheckedProxyFx] 1000 none 3 none true 300 =
      some uncheckedProxyFx ∧
    ([uncheckedProxyFx].filter
      (proxyPasses 1000 none 3 none true 300)).isEmpty = false ∧
    uncheckedProxyFx.last_checked = none ∧
    uncheckedProxyFx.is_working = false := by decide

/-- C3 amended: when `get_proxy` with `working_only=True` returns a proxy on
the primary path (without the fallback), the returned proxy has no record of
a failed health check: if its `last_checked` is set (and nonzero), then
`is_working` is true. -/
theorem get_proxy_no_failed_check (pool : List Proxy) (now : Int)
    (country : Option String) (maxFails : Int) (protocol : Option String)
    (minReuseDelay : Int) (p : Proxy)
    (hne : (pool.filter
      (proxyPasses now country maxFails protocol true minReuseDelay)).isEmpty
      = false)
    (hp : get_proxy pool now country maxFails protocol true minReuseDelay =
      some p)
    (hc : timeOptTruthy p.last_checked = true) :
    p.is_working = true := by
  unfold get_proxy at hp
  simp only [hne, Bool.false_eq_true, if_false] at hp
  have hm : p ∈ List.insertionSort proxyLE (pool.filter
      (proxyPasses now country maxFails protocol true minReuseDelay)) :=
    List.mem_of_mem_head? hp
  rw [List.mem_insertionSort] at hm
  exact (proxyPasses_spec _ _ _ _ _ _ _ (List.mem_filter.mp hm).2).1 rfl hc

/-- C3 witness: a proxy with a successful prior health check is selected and
the amended property holds for it. -/
theorem get_proxy_no_failed_check_witness :
    timeOptTruthy workingProxyFx.last_checked = true ∧
    workingProxyFx.is_working = true :=
  ⟨by decide, get_proxy_no_failed_check [workingProxyFx] 1000 none 3 none 300
    workingProxyFx (by decide) (by decide) (by decide)⟩

/-- C4 counterexample: with `now = 0` and a proxy whose `last_used` is exactly
`0.0`, the reuse guard `if p.last_used and ...` treats the zero timestamp as
falsy, so `get_proxy` returns the proxy on the primary path even though its
`last_used` is within `min_reuse_delay` seconds of now. -/
theorem get_proxy_zero_last_used_cex :
    get_proxy [zeroUsedProxyFx] 0 none 3 none true 300 = some zeroUsedProxyFx ∧
    ([zeroUsedProxyFx].filter
      (proxyPasses 0 none 3 none true 300)).isEmpty = false ∧
    zeroUsedProxyFx.last_used = some 0 ∧ ((0:Int) - 0 ≤ 300) := by decide

/-- C4 amended: `get_proxy` never returns a proxy whose recorded `last_used`
is nonzero and within `min_reuse_delay` seconds of now — on the primary path
or the fallback path, since the fallback applies the same reuse filter; a
zero timestamp is treated by the code as never-used. -/
theorem get_proxy_reuse_delay (pool : List Proxy) (now : Int)
    (country : Option String) (maxFails : Int) (protocol : Option String)
    (workingOnly : Bool) (minReuseDelay : Int) (p : Proxy) (t : Int)
    (hp : get_proxy pool now country maxFails protocol workingOnly
      minReuseDelay = some p)
    (ht : p.last_used = some t) (hnz : t ≠ 0) :
    minReuseDelay < now - t := by
  obtain ⟨b, hb⟩ := get_proxy_passes pool now country maxFails protocol
    workingOnly minReuseDelay p hp
  have htr : timeOptTruthy p.last_used = true := by
    simp [timeOptTruthy, ht, hnz]
  have hs := (proxyPasses_spec now country maxFails protocol b minReuseDelay
    p hb).2 htr
  rw [ht] at hs
  simp only [Option.getD_some] at hs
  omega

/-- C4 witness: a proxy last used 600 seconds ago is selected and the reuse
bound holds for it. -/
theorem get_proxy_reuse_delay_witness : (300:Int) < 1000 - 400 :=
  get_proxy_reuse_delay [cooledProxyFx] 1000 none 3 none true 300
    cooledProxyFx 400 (by decide) rfl (by decide)

/-- One usage/check event keeps `fail_count` non-negative. -/
lemma applyUsageEvent_nonneg (p : Proxy) (e : UsageEvent)
    (h : 0 ≤ p.fail_count) : 0 ≤ (applyUsageEvent p e).fail_count := by
  cases e <;>
    simp [applyUsageEvent, Proxy.mark_failed, Proxy.mark_success,
      Proxy.set_check_result] <;>
    omega

/-- C5: starting from a non-negative `fail_count`, any sequence of usage
reports (`mark_failed`/`mark_success`, as applied by `report_proxy_result`)
and health-check applications (`set_check_result`) leaves `fail_count`
non-negative: failures increment it, successes clamp the decrement at zero,
passing checks reset it to zero. -/
theorem fail_count_nonneg (p : Proxy) (evs : List UsageEvent)
    (h : 0 ≤ p.fail_count) : 0 ≤ (applyUsageEvents p evs).fail_count := by
  induction evs generalizing p with
  | nil => simpa [applyUsageEvents] using h
  | cons e rest ih =>
    rw [applyUsageEvents, List.foldl_cons]
    exact ih (applyUsageEvent p e) (applyUsageEvent_nonneg p e h)

/-- C5 witness: a concrete event sequence on a fresh proxy keeps the counter
non-negative. -/
theorem fail_count_nonneg_witness :
    (0:Int) ≤ ({ ip := "10.0.0.5", port := 1 } : Proxy).fail_count ∧
    (0:Int) ≤ (applyUsageEvents { ip := "10.0.0.5", port := 1 }
      [.success, .failed, .success, .success, .checkResult 5 true none,
       .failed]).fail_count :=
  ⟨by decide, fail_count_nonneg _ _ (by decide)⟩

/-- C7 counterexample: on an exception-raising check, `test_proxy` passes the
elapsed time into `set_check_result`, so a response time is recorded —
refuting the claim that no response time is recorded on failure/exception. -/
theorem test_proxy_records_response_time_cex :
    (test_proxy { ip := "10.0.0.3", port := 1 } 100 (.exn 5)).1 = false ∧
    (test_proxy { ip := "10.0.0.3", port := 1 } 100 (.exn 5)).2.response_time
      = some 5 := by decide

/-- C7 amended: every health probe stamps `last_checked`; a successful probe
sets `is_working`, resets `fail_count` to 0 and records the response time; a
failed or exception-raising probe clears `is_working`, increments
`fail_count` and also records the elapsed response time. -/
theorem health_probe_spec (p : Proxy) (now : Int) (o : ProbeOutcome) :
    (test_proxy p now o).2.last_checked = some now ∧
    ((test_proxy p now o).1 = true →
      (test_proxy p now o).2.is_working = true ∧
      (test_proxy p now o).2.fail_count = 0 ∧
      ∃ t, (test_proxy p now o).2.response_time = some t) ∧
    ((test_proxy p now o).1 = false →
      (test_proxy p now o).2.is_working = false ∧
      (test_proxy p now o).2.fail_count = p.fail_count + 1 ∧
      ∃ t, (test_proxy p now o).2.response_time = some t) := by
  cases o with
  | response status elapsed =>
    cases hs : (status == 200) <;>
      simp [test_proxy, Proxy.set_check_result, hs]
  | exn elapsed =>
    simp [test_proxy, Proxy.set_check_result]

/-- C7 witness: the amended characterisation at a concrete exception probe. -/
theorem health_probe_spec_witness :
    (test_proxy { ip := "10.0.0.6", port := 1 } 100 (.exn 5)).2.last_checked
      = some 100 ∧
    ((test_proxy { ip := "10.0.0.6", port := 1 } 100 (.exn 5)).1 = true →
      (test_proxy { ip := "10.0.0.6", port := 1 } 100 (.exn 5)).2.is_working
        = true ∧
      (test_proxy { ip := "10.0.0.6", port := 1 } 100 (.exn 5)).2.fail_count
        = 0 ∧
      ∃ t, (test_proxy { ip := "10.0.0.6", port := 1 } 100
        (.exn 5)).2.response_time = some t) ∧
    ((test_proxy { ip := "10.0.0.6", port := 1 } 100 (.exn 5)).1 = false →
      (test_proxy { ip := "10.0.0.6", port := 1 } 100 (.exn 5)).2.is_working
        = false ∧
      (test_proxy { ip := "10.0.0.6", port := 1 } 100 (.exn 5)).2.fail_count
        = ({ ip := "10.0.0.6", port := 1 } : Proxy).fail_count + 1 ∧
      ∃ t, (test_proxy { ip := "10.0.0.6", port := 1 } 100
        (.exn 5)).2.response_time = some t) :=
  health_probe_spec { ip := "10.0.0.6", port := 1 } 100 (.exn 5)

/-- The saved record of one account never carries a `password` key, and when
the in-memory account has a hash, the record carries it under
`password_hash`. -/
lemma saveRecord_spec (a : Account) :
    (∀ kv ∈ saveRecord a, kv.1 ≠ "password") ∧
    (∀ h, a.password_hash = some h →
      ("password_hash", JVal.bytes h) ∈ saveRecord a) := by
  constructor
  · intro kv hkv
    have := (List.mem_filter.mp hkv).2
    simpa using this
  · intro h hh
    simp [saveRecord, account_asdict, List.mem_filter, hh]

/-- After `__post_init__`, `password_hash` holds a non-empty byte record
(either the pre-existing truthy one or `salt ‖ key` with a 16-byte salt). -/
lemma post_init_hash (kdf : String → Bytes → Bytes) (salt : Bytes)
    (hsalt : salt.length = 16) (a : Account) :
    ∃ h, (post_init kdf salt a).password_hash = some h ∧ h ≠ [] := by
  have hsne : salt ≠ [] := by
    intro he
    rw [he] at hsalt
    simp at hsalt
  have happ : ∀ pw, salt ++ kdf pw salt ≠ [] := fun pw he =>
    hsne (List.append_eq_nil.mp he).1
  cases hph : a.password_hash with
  | none =>
    refine ⟨salt ++ kdf a.password salt, ?_, happ _⟩
    unfold post_init
    cases hpl : a.platforms <;> simp [hpl, hph, hash_password]
  | some v =>
    by_cases hv : v = []
    · refine ⟨salt ++ kdf a.password salt, ?_, happ _⟩
      unfold post_init
      cases hpl : a.platforms <;> simp [hpl, hph, hv, hash_password]
    · refine ⟨v, ?_, hv⟩
      unfold post_init
      cases hpl : a.platforms <;> simp [hpl, hph, hv]

/-- C1: every record written by `save_accounts` for a registry of accounts
that went through `__post_init__` carries a non-empty `password_hash` entry
and no `password` key: only hashed credentials reach the store. -/
theorem save_accounts_strips_plaintext (kdf : String → Bytes → Bytes)
    (salt : Bytes) (hsalt : salt.length = 16) (raws : List Account) :
    ∀ rec ∈ save_accounts (raws.map (post_init kdf salt)),
      (∀ kv ∈ rec, kv.1 ≠ "password") ∧
      ∃ h, ("password_hash", JVal.bytes h) ∈ rec ∧ h ≠ [] := by
  intro rec hrec
  unfold save_accounts at hrec
  rw [List.map_map, List.mem_map] at hrec
  obtain ⟨a, -, rfl⟩ := hrec
  refine ⟨(saveRecord_spec _).1, ?_⟩
  obtain ⟨h, hh, hne⟩ := post_init_hash kdf salt hsalt a
  exact ⟨h, (saveRecord_spec _).2 h hh, hne⟩

/-- C1 witness: a one-account registry saved after construction. -/
theorem save_accounts_strips_plaintext_witness :
    (List.replicate 16 (0:Nat)).length = 16 ∧
    ∀ rec ∈ save_accounts
      ([({ email := "a@b.com", password := "pw" } : Account)].map
        (post_init (fun _ _ => [7]) (List.replicate 16 0))),
      (∀ kv ∈ rec, kv.1 ≠ "password") ∧
      ∃ h, ("password_hash", JVal.bytes h) ∈ rec ∧ h ≠ [] :=
  ⟨by decide,
   save_accounts_strips_plaintext (fun _ _ => [7]) (List.replicate 16 0)
     (by decide) [{ email := "a@b.com", password := "pw" }]⟩

/-- C2: verification round-trips hashing — for any password and any 16-byte
salt the hasher may draw, an account storing `hash(p)` verifies `p`. -/
theorem verify_password_round_trip (kdf : String → Bytes → Bytes)
    (salt : Bytes) (hsalt : salt.length = 16) (p : String) (a : Account)
    (ha : a.password_hash = some (hash_password kdf salt p)) :
    verify_password kdf a p = true := by
  have hne : salt ++ kdf p salt ≠ [] := by
    intro he
    have := (List.append_eq_nil.mp he).1
    rw [this] at hsalt
    simp at hsalt
  simp only [verify_password, ha, hash_password]
  rw [if_neg hne, List.take_left' hsalt, List.drop_left' hsalt]
  exact beq_self_eq_true _

def kdfFx : String → Bytes → Bytes := fun p s => [p.length % 256, s.length % 256]

def saltFx : Bytes := List.replicate 16 0

/-- C2 witness: the round trip at a concrete password and salt. -/
theorem verify_password_round_trip_witness :
    saltFx.length = 16 ∧
    verify_password kdfFx
      { email := "a@b.com", password := "pw",
        password_hash := some (hash_password kdfFx saltFx "pw") } "pw" = true :=
  ⟨by decide, verify_password_round_trip kdfFx saltFx (by decide) "pw" _ rfl⟩

/-- C8: for an account present in the registry but not registered on the
given platform (no platform entry, or one with `registered = False`),
`_participate_airdrop` returns a failure result with the not-registered
message, leaves the account list unchanged, and does not persist. -/
theorem participate_airdrop_not_registered (accounts : List Account)
    (email airdrop_name platform : String) (actions : List String)
    (automation_success : Bool) (now : String) (a : Account)
    (he : email ≠ "") (han : airdrop_name ≠ "") (hpf : platform ≠ "")
    (hfind : get_account accounts email = some a)
    (hreg : ∀ info, (a.platforms.getD []).lookup platform = some info →
      info.registered = false) :
    participate_airdrop accounts (some email) (some airdrop_name)
      (some platform) actions automation_success now =
      ({ success := false,
         message := "Account not registered on " ++ platform,
         airdrop_name := none, platform := none, actions_completed := [] },
       accounts, false) := by
  unfold participate_airdrop
  simp only [strOptTruthy, bne_iff_ne, ne_eq, he, han, hpf,
    not_false_eq_true, Bool.not_true, Bool.or_self_left,
    Bool.or_false, Bool.false_or, Option.getD_some, hfind]
  cases hlk : (a.platforms.getD []).lookup platform with
  | none =>
    simp [hlk]
    rintro ((h | h) | h) <;> contradiction
  | some info =>
    simp [hlk, hreg info hlk]
    rintro ((h | h) | h) <;> contradiction

def notRegisteredAccountFx : Account :=
  { email := "c@d.com", password := "x", platforms := some defaultPlatforms,
    password_hash := some [1] }

/-- C8 witness: a registry with one account not yet registered on twitter. -/
theorem participate_airdrop_not_registered_witness :
    get_account [notRegisteredAccountFx] "c@d.com" =
      some notRegisteredAccountFx ∧
    participate_airdrop [notRegisteredAccountFx] (some "c@d.com")
      (some "drop1") (some "twitter") ["follow"] true "2024-01-01" =
      ({ success := false, message := "Account not registered on twitter",
         airdrop_name := none, platform := none, actions_completed := [] },
       [notRegisteredAccountFx], false) :=
  ⟨by decide,
   participate_airdrop_not_registered [notRegisteredAccountFx] "c@d.com"
     "drop1" "twitter" ["follow"] true "2024-01-01" notRegisteredAccountFx
     (by decide) (by decide) (by decide) (by decide)
     (by
       intro info h
       simp [notRegisteredAccountFx, defaultPlatforms] at h
       rw [← h])⟩

/-- A `random.choice` pick is always an element of a non-empty sequence. -/
lemma rand_choice_mem (l : List Char) (r : Nat) (h : l ≠ []) :
    rand_choice l r ∈ l := by
  have hpos : 0 < l.length := List.length_pos.mpr h
  have hlt : r % l.length < l.length := Nat.mod_lt _ hpos
  unfold rand_choice
  rw [List.getD_eq_getElem l 'A' hlt]
  exact List.getElem_mem hlt

/-- C9 counterexample: for requested length 2 (with any draws and the
identity permutation as shuffle), the generated password has length 4, not
the requested length — the four mandatory class picks are always emitted and
`range(length - 4)` is empty for short requests. -/
theorem generate_password_short_cex :
    (generate_password 2 (fun _ => 0) (fun l => l)).length = 4 ∧
    (generate_password 2 (fun _ => 0) (fun l => l)).length ≠ 2 ∧
    (∀ l : List Char, ((fun l => l) l).Perm l) :=
  ⟨by decide, by decide, fun l => List.Perm.refl l⟩

/-- C9 amended: for every requested length of at least 4, the generated
password has exactly the requested length, contains at least one character of
each required class (uppercase, lowercase, digit, fixed special set), and
consists only of characters of the full alphabet, in an order given by the
shuffle permutation. -/
theorem generate_password_policy (length : Nat) (hlen : 4 ≤ length)
    (rand : Nat → Nat) (shuffle : List Char → List Char)
    (hshuffle : ∀ l, (shuffle l).Perm l) :
    (generate_password length rand shuffle).length = length ∧
    (∃ c ∈ generate_password length rand shuffle, c ∈ uppercase_chars) ∧
    (∃ c ∈ generate_password length rand shuffle, c ∈ lowercase_chars) ∧
    (∃ c ∈ generate_password length rand shuffle, c ∈ digits_chars) ∧
    (∃ c ∈ generate_password length rand shuffle, c ∈ special_chars) ∧
    (∀ c ∈ generate_password length rand shuffle,
      c ∈ uppercase_chars ++ lowercase_chars ++ digits_chars ++
        special_chars) := by
  have hup : uppercase_chars ≠ [] := by decide
  have hlow : lowercase_chars ≠ [] := by decide
  have hdig : digits_chars ≠ [] := by decide
  have hsp : special_chars ≠ [] := by decide
  have hall : uppercase_chars ++ lowercase_chars ++ digits_chars ++
      special_chars ≠ [] := by decide
  unfold generate_password
  set base := [rand_choice uppercase_chars (rand 0),
               rand_choice lowercase_chars (rand 1),
               rand_choice digits_chars (rand 2),
               rand_choice special_chars (rand 3)] with hbase
  set rest := (List.range (length - 4)).map
    (fun i => rand_choice (uppercase_chars ++ lowercase_chars ++
      digits_chars ++ special_chars) (rand (4 + i))) with hrest
  have hperm := hshuffle (base ++ rest)
  have hmem : ∀ c, c ∈ shuffle (base ++ rest) ↔ c ∈ base ++ rest :=
    fun c => hperm.mem_iff
  refine ⟨?_, ?_, ?_, ?_, ?_, ?_⟩
  · rw [hperm.length_eq, List.length_append]
    simp [hbase, hrest]
    omega
  · refine ⟨rand_choice uppercase_chars (rand 0), ?_, rand_choice_mem _ _ hup⟩
    rw [hmem]
    exact List.mem_append_left _ (by simp [hbase])
  · refine ⟨rand_choice lowercase_chars (rand 1), ?_, rand_choice_mem _ _ hlow⟩
    rw [hmem]
    exact List.mem_append_left _ (by simp [hbase])
  · refine ⟨rand_choice digits_chars (rand 2), ?_, rand_choice_mem _ _ hdig⟩
    rw [hmem]
    exact List.mem_append_left _ (by simp [hbase])
  · refine ⟨rand_choice special_chars (rand 3), ?_, rand_choice_mem _ _ hsp⟩
    rw [hmem]
    exact List.mem_append_left _ (by simp [hbase])
  · intro c hc
    rw [hmem] at hc
    rcases List.mem_append.mp hc with hb | hr
    · rw [hbase] at hb
      simp only [List.mem_cons, List.not_mem_nil, or_false] at hb
      rcases hb with rfl | rfl | rfl | rfl
      · exact List.mem_append_left _ (List.mem_append_left _
          (List.mem_append_left _ (rand_choice_mem _ _ hup)))
      · exact List.mem_append_left _ (List.mem_append_left _
          (List.mem_append_right _ (rand_choice_mem _ _ hlow)))
      · exact List.mem_append_left _
          (List.mem_append_right _ (rand_choice_mem _ _ hdig))
      · exact List.mem_append_right _ (rand_choice_mem _ _ hsp)
    · rw [hrest, List.mem_map] at hr
      obtain ⟨i, -, rfl⟩ := hr
      exact rand_choice_mem _ _ hall

/-- C9 witness: the policy at the default length 16 with concrete draws and
the identity permutation. -/
theorem generate_password_policy_witness :
    4 ≤ 16 ∧
    ((generate_password 16 (fun _ => 0) (fun l => l)).length = 16 ∧
    (∃ c ∈ generate_password 16 (fun _ => 0) (fun l => l),
      c ∈ uppercase_chars) ∧
    (∃ c ∈ generate_password 16 (fun _ => 0) (fun l => l),
      c ∈ lowercase_chars) ∧
    (∃ c ∈ generate_password 16 (fun _ => 0) (fun l => l),
      c ∈ digits_chars) ∧
    (∃ c ∈ generate_password 16 (fun _ => 0) (fun l => l),
      c ∈ special_chars) ∧
    (∀ c ∈ generate_password 16 (fun _ => 0) (fun l => l),
      c ∈ uppercase_chars ++ lowercase_chars ++ digits_chars ++
        special_chars)) :=
  ⟨by decide,
   generate_password_policy 16 (by decide) (fun _ => 0) (fun l => l)
     (fun l => List.Perm.refl l)⟩

/-- C10 counterexample: the `structured` format raises the unknown-format
error, while `curl` — absent from the claim's format list — succeeds. -/
theorem export_working_structured_cex :
    export_working_proxies [] "structured" =
      .error "Unknown export format: structured" ∧
    export_working_proxies [] "curl" = .ok "" :=
  ⟨rfl, rfl⟩

/-- C10 amended: `export_working_proxies` succeeds exactly for the formats
`plain`, `json` and `curl` and raises the unknown-format error otherwise; its
output is determined by the `is_working` subset of the pool (filtering the
pool to that subset first does not change the result). -/
theorem export_working_formats (pool : List Proxy) (format : String) :
    ((∃ s, export_working_proxies pool format = .ok s) ↔
      (format = "plain" ∨ format = "json" ∨ format = "curl")) ∧
    export_working_proxies pool format =
      export_working_proxies (pool.filter (fun p => p.is_working)) format := by
  have hff : (pool.filter (fun p => p.is_working)).filter
      (fun p => p.is_working) = pool.filter (fun p => p.is_working) :=
    List.filter_eq_self.mpr (fun a ha => (List.mem_filter.mp ha).2)
  constructor
  · unfold export_working_proxies
    split_ifs with h1 h2 h3
    · simp [h1]
    · simp [h2]
    · simp [h3]
    · simp [h1, h2, h3]
  · simp only [export_working_proxies, hff]

/-- C10 witness: the characterisation instantiated at the `plain` format. -/
theorem export_working_formats_witness :
    ∃ s, export_working_proxies [] "plain" = .ok s :=
  (export_working_formats [] "plain").1.mpr (Or.inl rfl)

def regBugAccountFx : Account :=
  { email := "a@b.com", password := "x", proxy := some "http://1.2.3.4:8080",
    platforms := some defaultPlatforms, password_hash := some [1] }

/-- C6: for an account with an assigned, resolvable proxy, a failed
automation attempt makes `_register_platform` call the non-existent
`ProxyManager.report_proxy_failure`, so the handler raises `AttributeError`
instead of reporting the proxy failure and returning a failure result — the
matching pool entry's `fail_count` is never incremented. -/
theorem register_platform_failure_attribute_error :
    resolve_account_proxy regBugAccountFx =
      .ok (some { ip := "1.2.3.4", port := 8080 }) ∧
    register_platform [regBugAccountFx] [{ ip := "1.2.3.4", port := 8080 }]
      (some "a@b.com") (some "twitter") false "2024-01-01 00:00:00" =
      .error ("AttributeError: ProxyManager object has no attribute " ++
        "report_proxy_failure") :=
  ⟨rfl, rfl⟩
